import Mathlib

/-!
Verification of the customer-support message router
(`technical_councellor_agent.py` and `app.py`).

The Python code is shallowly embedded: dictionaries become association
lists, the per-user session memory becomes an explicit `Memory` value
threaded through every operation, exceptions become error results carrying
the Python exception text, and the external language-model completion call
becomes an oracle parameter `llm : String → Except String String` (an
`Except.error` models the call raising).  Python `dict` results such as
`{'response': ...}` / `{'error': ...}` become a record with optional
fields.  User profiles are passed to the code only to be JSON-serialized
into the prompt, so they are embedded as the pre-serialized string.

Definitions named `foo` embed `TechnicalSupportAgent.foo` from
`technical_councellor_agent.py`; definitions named `app_foo` embed
`MultiSupportAgent.foo` from `app.py`.  Definitions shared by both files
(the classifier and the session store, which are line-identical in the two
classes) are embedded once.
-/

/-- ASCII lower-casing of one character, as CPython `str.lower` acts on the
ASCII range (all classifier keywords are ASCII). -/
def pyCharLower (c : Char) : Char := c.toLower

/-- Python `s.lower()`: lower-case every character of the string. -/
def pyLower (s : String) : String := String.mk (s.toList.map pyCharLower)

/-- Auxiliary substring search on character lists: does `needle` occur as a
contiguous run inside the list? -/
def substrOccurs (needle : List Char) : List Char → Bool
  | [] => needle.isEmpty
  | c :: t => needle.isPrefixOf (c :: t) || substrOccurs needle t

/-- Python `needle in hay` on strings: substring containment. -/
def strContains (hay needle : String) : Bool :=
  substrOccurs needle.toList hay.toList

/-- Embedding of `any(keyword in query.lower() for keyword in keywords)` as used by the
classifier. -/
def kwAny (query : String) (keywords : List String) : Bool :=
  keywords.any (fun keyword => strContains (pyLower query) keyword)

/-- Embedding of `_categorize_query` — line-identical in `TechnicalSupportAgent`
(`technical_councellor_agent.py` lines 127-137) and `MultiSupportAgent`
(`app.py` lines 97-107): first-match-wins keyword classification with
`general_queries` as the fallback. -/
def categorize_query (query : String) : String :=
  if kwAny query ["wi-fi", "internet", "connectivity"] then
    "technical_support"
  else if kwAny query ["bill", "payment", "balance"] then
    "billing"
  else if kwAny query ["new connection", "upgrade", "install"] then
    "service_request"
  else if kwAny query ["password", "account"] then
    "account_management"
  else
    "general_queries"

/-- The keyword table of §4.1 of the specification, in its stated priority
order.  Used only by `classifySpec`. -/
def categoryKeywordTable : List (String × List String) :=
  [("technical_support", ["wi-fi", "internet", "connectivity"]),
   ("billing", ["bill", "payment", "balance"]),
   ("service_request", ["new connection", "upgrade", "install"]),
   ("account_management", ["password", "account"])]

/-- The classifier as the specification words it (for the refinement claim):
return the first category of the table with any keyword match in the
lower-cased message, and `general_queries` when none matches. -/
def classifySpec (message : String) : String :=
  ((categoryKeywordTable.find? (fun p => kwAny message p.2)).map
    (fun p => p.1)).getD "general_queries"

/-- Claim C1: the classifier is a total deterministic function (it is a
Lean `def`, hence total and effect-free by construction) and it agrees, on
every message, with the specification's description: lower-case the
message, test the keyword sets in the fixed priority order
technical_support, billing, service_request, account_management, return
the first category with any substring match, and return `general_queries`
when no keyword matches.  The single definition `categorize_query` embeds
both `TechnicalSupportAgent._categorize_query` and
`MultiSupportAgent._categorize_query`, which are line-identical. -/
theorem claim_C1_classifier_refines_spec :
    ∀ message : String, categorize_query message = classifySpec message := by
  intro m
  unfold categorize_query classifySpec categoryKeywordTable
  cases h1 : kwAny m ["wi-fi", "internet", "connectivity"] <;>
    cases h2 : kwAny m ["bill", "payment", "balance"] <;>
      cases h3 : kwAny m ["new connection", "upgrade", "install"] <;>
        cases h4 : kwAny m ["password", "account"] <;>
          simp [List.find?, h1, h2, h3, h4]

/-- Result record embedding the Python result dictionaries
`{'response': ...}` / `{'error': ...}` (and `{"response", "category"}` in
`app.py`).  A field that the code does not put into the dictionary is
`none`. -/
structure SupportResult where
  response : Option String := none
  category : Option String := none
  error : Option String := none
deriving DecidableEq

/-- A conversation turn as recorded by
`save_context({"input": m}, {"output": r})`: the (input, output) pair. -/
abbrev Transcript := List (String × String)

/-- The process-wide session store `self.memory`: a Python dict from user
identifier to conversation buffer, embedded as an association list with
unique keys (dict insertion appends at the end). -/
abbrev Memory := List (String × Transcript)

/-- Python dict lookup `d[k]` / `d.get(k)` on an association list. -/
def assocLookup {α : Type} : List (String × α) → String → Option α
  | [], _ => none
  | p :: rest, k => if p.1 = k then some p.2 else assocLookup rest k

/-- Observable transcript content of a user: the recorded turns, or `[]`
when the user has never been seen (an absent key and a freshly created
empty buffer are observably the same transcript content). -/
def content (st : Memory) (user_id : String) : Transcript :=
  (assocLookup st user_id).getD []

/-- Embedding of `get_user_memory` — line-identical in `TechnicalSupportAgent`
(`technical_councellor_agent.py` lines 114-120) and `MultiSupportAgent`
(`app.py` lines 84-90): if the user has no buffer yet, create an empty
one; return the user's buffer.  Returns the buffer content together with
the (possibly extended) store. -/
def get_user_memory (st : Memory) (user_id : String) : Transcript × Memory :=
  match assocLookup st user_id with
  | some t => (t, st)
  | none => ([], st ++ [(user_id, [])])

/-- Embedding of `memory.save_context({"input": i}, {"output": o})` on the buffer of
`user_id`: append the turn to that user's transcript (the caller always
holds a buffer obtained from `get_user_memory`, so the key is present). -/
def save_context : Memory → String → String → String → Memory
  | [], _, _, _ => []
  | p :: rest, user_id, i, o =>
    if p.1 = user_id then (p.1, p.2 ++ [(i, o)]) :: rest
    else p :: save_context rest user_id i o

/-- Embedding of `_get_conversation_history` (`technical_councellor_agent.py` lines
122-125): `load_memory_variables` returns the buffer as a list of message
objects — for every saved turn a human message then an ai message,
embedded as (type, content) pairs. -/
def get_conversation_history (st : Memory) (user_id : String) :
    List (String × String) × Memory :=
  let r := get_user_memory st user_id
  (r.1.flatMap (fun p => [("human", p.1), ("ai", p.2)]), r.2)

/-- The three prompt inputs assembled for template rendering (the Python
`inputs` dict).  `user_details` holds the JSON-serialized profile: the
profile is uninterpreted by the code and only ever used through
`json.dumps(user_details, indent=2)`, so it is embedded already
serialized. -/
structure SupportInputs where
  user_details : String
  conversation_history : String
  user_message : String
deriving DecidableEq

/-- Embedding of `_prepare_support_inputs` (`technical_councellor_agent.py` lines
139-150): render each history message as `"<type>: <content>"`, join with
newlines, and pack the three template inputs. -/
def prepare_support_inputs (user_details user_message : String)
    (conversation_history : List (String × String)) : SupportInputs :=
  { user_details := user_details,
    conversation_history :=
      String.intercalate "\n"
        (conversation_history.map (fun msg => msg.1 ++ ": " ++ msg.2)),
    user_message := user_message }

/-- The opening-brace character of a template placeholder. -/
def lbrace : Char := Char.ofNat 123

/-- The closing-brace character of a template placeholder. -/
def rbrace : Char := Char.ofNat 125

theorem dropWhile_length_le (p : Char → Bool) :
    ∀ l : List Char, (l.dropWhile p).length ≤ l.length := by
  intro l
  induction l with
  | nil => simp [List.dropWhile]
  | cons c t ih =>
    simp only [List.dropWhile]
    cases p c
    · simp
    · simp
      omega

/-- Python `str.format` restricted to what the fixed templates use: each
`\x7bname\x7d` placeholder is replaced by the bound input of that name
(the templates contain exactly the three bound names and no brace
escapes). -/
def substPlaceholders (ud ch um : String) : List Char → List Char
  | [] => []
  | c :: t =>
    if c = lbrace then
      (if String.mk (t.takeWhile (fun a => a ≠ rbrace)) = "user_details" then
        ud.toList
      else if String.mk (t.takeWhile (fun a => a ≠ rbrace)) = "conversation_history" then
        ch.toList
      else
        um.toList) ++
      substPlaceholders ud ch um ((t.dropWhile (fun a => a ≠ rbrace)).drop 1)
    else
      c :: substPlaceholders ud ch um t
termination_by l => l.length
decreasing_by
  · simp only [List.length_cons, List.length_drop]
    have := dropWhile_length_le (fun a => a ≠ rbrace) t
    omega
  · simp

/-- Embedding of `prompt_template.format(**inputs)`: substitute the three named
placeholders into the template text. -/
def formatPrompt (inputs : SupportInputs) (tpl : String) : String :=
  String.mk (substPlaceholders inputs.user_details inputs.conversation_history
    inputs.user_message tpl.toList)

/-- Layout helper reproducing the Python triple-quoted template strings:
a leading newline, each line indented by 16 spaces, and a trailing
newline with the 12-space closing indentation. -/
def tmpl16 (lines : List String) : String :=
  "\n                " ++ String.intercalate "\n                " lines ++
    "\n            "

/-- Template `'technical_support'` of `TechnicalSupportAgent`
(`technical_councellor_agent.py` lines 27-41). -/
def technical_support_template : String :=
  tmpl16 ["You are a technical support assistant. Respond intelligently and politely to the user\x27s issue.",
    "Here are the details:", "",
    "User Details:", "{user_details}", "",
    "Conversation History:", "{conversation_history}", "",
    "User\x27s Message:", "{user_message}", "",
    "Provide a helpful and specific response."]

/-- Template `'billing'` of `TechnicalSupportAgent` (lines 42-56). -/
def billing_template : String :=
  tmpl16 ["You are a billing assistant. Respond intelligently to questions about billing or payments.",
    "Here are the details:", "",
    "User Details:", "{user_details}", "",
    "Conversation History:", "{conversation_history}", "",
    "User\x27s Message:", "{user_message}", "",
    "Provide a clear and concise response."]

/-- Template `'service_request'` of `TechnicalSupportAgent` (lines 57-71). -/
def service_request_template : String :=
  tmpl16 ["You are a customer service assistant. Respond intelligently to questions about new connections or service upgrades.",
    "Here are the details:", "",
    "User Details:", "{user_details}", "",
    "Conversation History:", "{conversation_history}", "",
    "User\x27s Message:", "{user_message}", "",
    "Provide an informative response."]

/-- Template `'account_management'` of `TechnicalSupportAgent`
(lines 72-86). -/
def account_management_template : String :=
  tmpl16 ["You are an account management assistant. Help the user with account-related issues.",
    "Here are the details:", "",
    "User Details:", "{user_details}", "",
    "Conversation History:", "{conversation_history}", "",
    "User\x27s Message:", "{user_message}", "",
    "Provide a step-by-step response."]

/-- Template `'general_queries'` of `TechnicalSupportAgent`
(lines 87-101). -/
def general_queries_template : String :=
  tmpl16 ["You are a general customer support assistant. Respond to the user\x27s queries.",
    "Here are the details:", "",
    "User Details:", "{user_details}", "",
    "Conversation History:", "{conversation_history}", "",
    "User\x27s Message:", "{user_message}", "",
    "Provide an engaging and helpful response."]

/-- Embedding of `self.prompts` of `TechnicalSupportAgent` (`technical_councellor_agent.py`
lines 25-102): the five category templates. -/
def prompts : List (String × String) :=
  [("technical_support", technical_support_template),
   ("billing", billing_template),
   ("service_request", service_request_template),
   ("account_management", account_management_template),
   ("general_queries", general_queries_template)]

/-- Embedding of `get_prompt_template` of `TechnicalSupportAgent`
(`technical_councellor_agent.py` lines 152-156).  `self.prompts.get(category)`
has NO default here, so a category outside the five keys gives `None` as
the template text; constructing `PromptTemplate(template=None)` then fails
its field validation.  This is embedded as returning `none` — no usable
template — versus `some` of the template text. -/
def get_prompt_template (category : String) : Option String :=
  assocLookup prompts category

/-- Interceptor 1 condition (`technical_councellor_agent.py` line 162):
`any(keyword in user_message.lower() for keyword in ["schedule call",
"visit", "setup connection"])`. -/
def scheduleGuard (m : String) : Bool :=
  ["schedule call", "visit", "setup connection"].any
    (fun keyword => strContains (pyLower m) keyword)

/-- Interceptor 2 condition (line 166): `"new connection" in
user_message.lower()`. -/
def newConnectionGuard (m : String) : Bool :=
  strContains (pyLower m) "new connection"

/-- Interceptor 3 condition (line 170): `"thank you" ... or "exit" ... or
"okay bye" in user_message.lower()`. -/
def feedbackRequestGuard (m : String) : Bool :=
  strContains (pyLower m) "thank you" || strContains (pyLower m) "exit" ||
    strContains (pyLower m) "okay bye"

/-- Interceptor 4 condition (line 174): `user_message in
['1', '2', '3', '4', '5']` — literal membership, no lower-casing. -/
def ratingGuard (m : String) : Bool :=
  ["1", "2", "3", "4", "5"].contains m

/-- Interceptor 5 condition (line 178): `"bye" ... or "thank you" ... or
"okay bye" in user_message.lower()`. -/
def exitGuard (m : String) : Bool :=
  strContains (pyLower m) "bye" || strContains (pyLower m) "thank you" ||
    strContains (pyLower m) "okay bye"

/-- Post-completion condition (line 195): `"technical issue" in
user_message.lower() and "resolved" not in user_message.lower()`. -/
def techIssueGuard (m : String) : Bool :=
  strContains (pyLower m) "technical issue" &&
    !(strContains (pyLower m) "resolved")

/-- A message is resolved by one of the five interceptor branches
(the disjunction of the five guard conditions of lines 162-179). -/
def interceptorTaken (m : String) : Bool :=
  scheduleGuard m || newConnectionGuard m || feedbackRequestGuard m ||
    ratingGuard m || exitGuard m

/-- The `str(AttributeError)` text produced by calling one of the methods that
`TechnicalSupportAgent` never defines (`schedule_visit_or_call`,
`handle_new_connection`, `ask_for_engineer_visit`). -/
def attrMessage (method : String) : String :=
  "\x27TechnicalSupportAgent\x27 object has no attribute \x27" ++ method ++
    "\x27"

/-- The catch-all of `get_support_response` (line 201):
`f"An error occurred: \x7bstr(e)\x7d"`. -/
def errorWrap (e : String) : String := "An error occurred: " ++ e

/-- Embedding of `ask_for_feedback` (`technical_councellor_agent.py` lines 203-207). -/
def ask_for_feedback (_previous_response : String) : SupportResult :=
  { response := some "Thank you for your message! Please rate our service on a scale of 1 to 5." }

/-- Python `int(s)` restricted to the nonnegative decimal strings the code
applies it to (it is only evaluated after the guard
`s in ['1','2','3','4','5']`, where the parse always succeeds): fold the
decimal digits. -/
def pyInt (s : String) : Int :=
  Int.ofNat (s.toList.foldl (fun n c => n * 10 + (c.toNat - 48)) 0)

/-- Embedding of `handle_feedback` (`technical_councellor_agent.py` lines 209-227). -/
def handle_feedback (feedback : String) : SupportResult :=
  if ["1", "2", "3", "4", "5"].contains feedback then
    if pyInt feedback > 3 then
      { response := some ("Thank you for your feedback! You rated our service as " ++ feedback ++ ", Excellent!") }
    else if pyInt feedback < 3 then
      { response := some ("Thank you for your feedback! You rated our service as " ++ feedback ++ ". Please provide suggestions for improvement.") }
    else
      { response := some ("Thank you for your feedback! You rated our service as " ++ feedback ++ ", Satisfactory.") }
  else
    { response := some "It seems you provided an invalid rating. Please rate our service on a scale of 1 to 5." }

/-- Embedding of `handle_exit` (`technical_councellor_agent.py` lines 237-241). -/
def handle_exit : SupportResult :=
  { response := some "Goodbye! Thank you for reaching out. If you need assistance in the future, feel free to contact us again. Have a great day!" }

/-- Modelled text of the validation failure raised when
`PromptTemplate` is constructed with `template=None` (only reachable with
a category outside the five template keys, which `categorize_query` never
produces). -/
def promptNoneMessage : String :=
  "1 validation error for PromptTemplate"

/-- The final else-branch of `get_support_response`
(`technical_councellor_agent.py` lines 181-198), split out so lemmas can
name it: classify, fetch (and lazily create) the user's buffer, read the
history, assemble the prompt, invoke the completion, record the turn, then
apply the post-hoc technical-issue check, whose call to the undefined
method `ask_for_engineer_visit` raises.  Exceptions escape to the
caller's catch-all, which wraps them with `errorWrap`; state changes made
before the raise persist (`self.memory` is mutated in place). -/
def main_support_path (llm : String → Except String String) (st : Memory)
    (user_details user_message user_id : String) : SupportResult × Memory :=
  let st1 := (get_user_memory st user_id).2
  let hist := (get_conversation_history st1 user_id).1
  let st2 := (get_conversation_history st1 user_id).2
  let inputs := prepare_support_inputs user_details user_message hist
  match get_prompt_template (categorize_query user_message) with
  | none => ({ error := some (errorWrap promptNoneMessage) }, st2)
  | some tpl =>
    match llm (formatPrompt inputs tpl) with
    | Except.error e => ({ error := some (errorWrap e) }, st2)
    | Except.ok response =>
      let st3 := save_context st2 user_id user_message response
      if techIssueGuard user_message then
        ({ error := some (errorWrap (attrMessage "ask_for_engineer_visit")) }, st3)
      else
        ({ response := some response }, st3)

/-- Embedding of `get_support_response` of `TechnicalSupportAgent`
(`technical_councellor_agent.py` lines 158-201).  The five interceptor
branches are tried in source order; branches 1 and 2 call the undefined
methods `schedule_visit_or_call` / `handle_new_connection`, so they raise
`AttributeError`, which the catch-all converts to an error result.  If no
interceptor matches, control reaches `main_support_path`. -/
def get_support_response (llm : String → Except String String) (st : Memory)
    (user_details user_message user_id : String) : SupportResult × Memory :=
  if scheduleGuard user_message then
    ({ error := some (errorWrap (attrMessage "schedule_visit_or_call")) }, st)
  else if newConnectionGuard user_message then
    ({ error := some (errorWrap (attrMessage "handle_new_connection")) }, st)
  else if feedbackRequestGuard user_message then
    (ask_for_feedback user_message, st)
  else if ratingGuard user_message then
    (handle_feedback user_message, st)
  else if exitGuard user_message then
    (handle_exit, st)
  else
    main_support_path llm st user_details user_message user_id

/-- Template `'technical_support'` of `MultiSupportAgent` (`app.py` lines
32-39). -/
def app_technical_support_template : String :=
  tmpl16 ["You are a technical support assistant. Respond intelligently and politely to the user\x27s issue.",
    "Here are the details:",
    "User Details: {user_details}",
    "Conversation History: {conversation_history}",
    "User\x27s Message: {user_message}",
    "Provide a helpful and specific response."]

/-- Template `'billing'` of `MultiSupportAgent` (`app.py` lines 40-47). -/
def app_billing_template : String :=
  tmpl16 ["You are a billing assistant. Respond intelligently to questions about billing or payments.",
    "Here are the details:",
    "User Details: {user_details}",
    "Conversation History: {conversation_history}",
    "User\x27s Message: {user_message}",
    "Provide a clear and concise response."]

/-- Template `'service_request'` of `MultiSupportAgent` (`app.py` lines
48-55). -/
def app_service_request_template : String :=
  tmpl16 ["You are a customer service assistant. Respond intelligently to questions about new connections or service upgrades.",
    "Here are the details:",
    "User Details: {user_details}",
    "Conversation History: {conversation_history}",
    "User\x27s Message: {user_message}",
    "Provide an informative response."]

/-- Template `'account_management'` of `MultiSupportAgent` (`app.py` lines
56-63). -/
def app_account_management_template : String :=
  tmpl16 ["You are an account management assistant. Help the user with account-related issues.",
    "Here are the details:",
    "User Details: {user_details}",
    "Conversation History: {conversation_history}",
    "User\x27s Message: {user_message}",
    "Provide a step-by-step response."]

/-- Template `'general_queries'` of `MultiSupportAgent` (`app.py` lines
64-71). -/
def app_general_queries_template : String :=
  tmpl16 ["You are a general customer support assistant. Respond to the user\x27s queries.",
    "Here are the details:",
    "User Details: {user_details}",
    "Conversation History: {conversation_history}",
    "User\x27s Message: {user_message}",
    "Provide an engaging and helpful response."]

/-- Embedding of `self.prompts` of `MultiSupportAgent` (`app.py` lines 30-72). -/
def app_prompts : List (String × String) :=
  [("technical_support", app_technical_support_template),
   ("billing", app_billing_template),
   ("service_request", app_service_request_template),
   ("account_management", app_account_management_template),
   ("general_queries", app_general_queries_template)]

/-- Embedding of `get_prompt_template` of `MultiSupportAgent` (`app.py` lines 109-113):
`self.prompts.get(category, self.prompts['general_queries'])` — unlike the
`TechnicalSupportAgent` variant, an unknown category falls back to the
`general_queries` template. -/
def app_get_prompt_template (category : String) : String :=
  (assocLookup app_prompts category).getD app_general_queries_template

/-- Embedding of `_get_conversation_history` of `MultiSupportAgent` (`app.py` lines
92-95): `"\n".join(history.get(...))` — but with `return_messages=True` the
history variable holds message OBJECTS, so `str.join` raises `TypeError`
as soon as the list is non-empty; on an empty history it returns `""`. -/
def app_get_conversation_history (st : Memory) (user_id : String) :
    Except String String × Memory :=
  let r := get_user_memory st user_id
  (if r.1.isEmpty then Except.ok ""
   else Except.error "sequence item 0: expected str instance, HumanMessage found",
   r.2)

/-- The `inputs` dict of `MultiSupportAgent.get_support_response` (`app.py`
lines 122-126). -/
def app_inputs (user_details conversation_history user_message : String) :
    SupportInputs :=
  { user_details := user_details,
    conversation_history := conversation_history,
    user_message := user_message }

/-- Embedding of `get_support_response` of `MultiSupportAgent` (`app.py` lines 115-136):
no interceptors — classify, fetch the buffer, read the history (which
raises on a non-empty history, see `app_get_conversation_history`),
assemble and render the prompt, invoke the completion, record the turn and
return response plus category; any raise is caught and returned as
`{"error": str(e)}` (no added text in this file). -/
def app_get_support_response (llm : String → Except String String)
    (st : Memory) (user_details user_message user_id : String) :
    SupportResult × Memory :=
  let st1 := (get_user_memory st user_id).2
  match app_get_conversation_history st1 user_id with
  | (Except.error e, st2) => ({ error := some e }, st2)
  | (Except.ok hist, st2) =>
    let tpl := app_get_prompt_template (categorize_query user_message)
    match llm (formatPrompt (app_inputs user_details hist user_message) tpl) with
    | Except.error e => ({ error := some e }, st2)
    | Except.ok response =>
      ({ response := some response,
         category := some (categorize_query user_message) },
       save_context st2 user_id user_message response)

/-- Completion-service stub that always succeeds, used by concrete
witnesses.  The reply text is arbitrary. -/
def llmStubOk : String → Except String String :=
  fun _ => Except.ok "STUB_REPLY"

/-- Completion-service stub that always raises, used by concrete
witnesses. -/
def llmStubFail : String → Except String String :=
  fun _ => Except.error "completion boom"

theorem gsr_schedule_branch (llm : String → Except String String) (st : Memory)
    (ud m uid : String) (h1 : scheduleGuard m = true) :
    get_support_response llm st ud m uid =
      ({ error := some (errorWrap (attrMessage "schedule_visit_or_call")) }, st) := by
  simp [get_support_response, h1]

theorem gsr_newconn_branch (llm : String → Except String String) (st : Memory)
    (ud m uid : String) (h1 : scheduleGuard m = false)
    (h2 : newConnectionGuard m = true) :
    get_support_response llm st ud m uid =
      ({ error := some (errorWrap (attrMessage "handle_new_connection")) }, st) := by
  simp [get_support_response, h1, h2]

theorem gsr_feedbackreq_branch (llm : String → Except String String) (st : Memory)
    (ud m uid : String) (h1 : scheduleGuard m = false)
    (h2 : newConnectionGuard m = false) (h3 : feedbackRequestGuard m = true) :
    get_support_response llm st ud m uid = (ask_for_feedback m, st) := by
  simp [get_support_response, h1, h2, h3]

theorem gsr_rating_branch (llm : String → Except String String) (st : Memory)
    (ud m uid : String) (h1 : scheduleGuard m = false)
    (h2 : newConnectionGuard m = false) (h3 : feedbackRequestGuard m = false)
    (h4 : ratingGuard m = true) :
    get_support_response llm st ud m uid = (handle_feedback m, st) := by
  simp [get_support_response, h1, h2, h3, h4]

theorem gsr_exit_branch (llm : String → Except String String) (st : Memory)
    (ud m uid : String) (h1 : scheduleGuard m = false)
    (h2 : newConnectionGuard m = false) (h3 : feedbackRequestGuard m = false)
    (h4 : ratingGuard m = false) (h5 : exitGuard m = true) :
    get_support_response llm st ud m uid = (handle_exit, st) := by
  simp [get_support_response, h1, h2, h3, h4, h5]

theorem gsr_main_branch (llm : String → Except String String) (st : Memory)
    (ud m uid : String) (h1 : scheduleGuard m = false)
    (h2 : newConnectionGuard m = false) (h3 : feedbackRequestGuard m = false)
    (h4 : ratingGuard m = false) (h5 : exitGuard m = false) :
    get_support_response llm st ud m uid = main_support_path llm st ud m uid := by
  simp [get_support_response, h1, h2, h3, h4, h5]

theorem assocLookup_append {α : Type} (st ext : List (String × α)) (v : String) :
    assocLookup (st ++ ext) v =
      match assocLookup st v with
      | some t => some t
      | none => assocLookup ext v := by
  induction st with
  | nil => simp [assocLookup]
  | cons p rest ih =>
    by_cases h : p.1 = v <;> simp [assocLookup, h, ih]

theorem content_gum (st : Memory) (u v : String) :
    content (get_user_memory st u).2 v = content st v := by
  unfold get_user_memory
  cases h : assocLookup st u with
  | some t => rfl
  | none =>
    simp only [content, assocLookup_append]
    cases h2 : assocLookup st v with
    | some t => rfl
    | none =>
      by_cases huv : u = v <;> simp [assocLookup, huv, h2]

theorem gum_fst (st : Memory) (u : String) :
    (get_user_memory st u).1 = content st u := by
  unfold get_user_memory content
  cases h : assocLookup st u <;> simp [h]

theorem gum_self_lookup (st : Memory) (u : String) :
    assocLookup (get_user_memory st u).2 u = some ((get_user_memory st u).1) := by
  unfold get_user_memory
  cases h : assocLookup st u with
  | some t => simpa using h
  | none => simp [assocLookup_append, h, assocLookup]

theorem gum_idem (st : Memory) (u : String) :
    get_user_memory (get_user_memory st u).2 u =
      ((get_user_memory st u).1, (get_user_memory st u).2) := by
  have h := gum_self_lookup st u
  conv_lhs => rw [get_user_memory]
  rw [h]

theorem gch_snd (st : Memory) (u : String) :
    (get_conversation_history st u).2 = (get_user_memory st u).2 := rfl

theorem assocLookup_save_self (st : Memory) (u i o : String) (t : Transcript)
    (h : assocLookup st u = some t) :
    assocLookup (save_context st u i o) u = some (t ++ [(i, o)]) := by
  induction st with
  | nil => simp [assocLookup] at h
  | cons p rest ih =>
    by_cases hp : p.1 = u
    · simp [assocLookup, hp] at h
      simp [save_context, assocLookup, hp, h]
    · simp [assocLookup, hp] at h
      simp [save_context, assocLookup, hp, ih h]

theorem assocLookup_save_other (st : Memory) (u i o v : String) (h : v ≠ u) :
    assocLookup (save_context st u i o) v = assocLookup st v := by
  induction st with
  | nil => simp [save_context]
  | cons p rest ih =>
    by_cases hp : p.1 = u
    · have hpv : p.1 ≠ v := by rw [hp]; exact fun hh => h hh.symm
      simp [save_context, assocLookup, hp, hpv, Ne.symm h]
    · by_cases hv : p.1 = v <;>
        simp [save_context, assocLookup, hp, hv, h, ih]

theorem content_save_self (st : Memory) (u i o : String) (t : Transcript)
    (h : assocLookup st u = some t) :
    content (save_context st u i o) u = t ++ [(i, o)] := by
  simp [content, assocLookup_save_self st u i o t h]

theorem gpt_cat_some (m : String) :
    ∃ tpl, get_prompt_template (categorize_query m) = some tpl := by
  unfold categorize_query
  split_ifs <;> exact ⟨_, rfl⟩

/-- A result populates exactly one of the response field and the error
field. -/
def exclusiveResult (r : SupportResult) : Prop :=
  (r.response.isSome = true ∧ r.error = none) ∨
    (r.error.isSome = true ∧ r.response = none)

/-- The completion prompt assembled on the model-invoking path: the
category template rendered with the serialized profile, the formatted
history of the user's buffer, and the message. -/
def assembled_prompt (st : Memory) (ud m uid tpl : String) : String :=
  formatPrompt (prepare_support_inputs ud m
    (get_conversation_history (get_user_memory st uid).2 uid).1) tpl

theorem main_eq (llm : String → Except String String) (st : Memory)
    (ud m uid : String) :
    main_support_path llm st ud m uid =
      match get_prompt_template (categorize_query m) with
      | none => ({ error := some (errorWrap promptNoneMessage) },
          (get_user_memory st uid).2)
      | some tpl =>
        match llm (assembled_prompt st ud m uid tpl) with
        | Except.error e => ({ error := some (errorWrap e) },
            (get_user_memory st uid).2)
        | Except.ok response =>
          if techIssueGuard m then
            ({ error := some (errorWrap (attrMessage "ask_for_engineer_visit")) },
             save_context (get_user_memory st uid).2 uid m response)
          else
            ({ response := some response },
             save_context (get_user_memory st uid).2 uid m response)
    := by
  simp only [main_support_path, assembled_prompt, gch_snd, gum_idem]

theorem main_exclusive (llm : String → Except String String) (st : Memory)
    (ud m uid : String) :
    exclusiveResult (main_support_path llm st ud m uid).1 := by
  rcases gpt_cat_some m with ⟨tpl, hT⟩
  rw [main_eq]
  simp only [hT]
  cases hL : llm (assembled_prompt st ud m uid tpl) with
  | error e => simp only [hL]; simp [exclusiveResult]
  | ok r =>
    simp only [hL]
    by_cases ht : techIssueGuard m <;> simp [exclusiveResult, ht]

theorem main_content (llm : String → Except String String) (st : Memory)
    (ud m uid : String) (htech : techIssueGuard m = false)
    (herr : ((main_support_path llm st ud m uid).1.error).isSome = true) :
    ∀ v, content (main_support_path llm st ud m uid).2 v = content st v := by
  intro v
  rw [main_eq] at herr ⊢
  rcases gpt_cat_some m with ⟨tpl, hT⟩
  simp only [hT] at herr ⊢
  cases hL : llm (assembled_prompt st ud m uid tpl) with
  | error e =>
    simp only [hL] at herr ⊢
    exact content_gum st uid v
  | ok r =>
    simp only [hL] at herr ⊢
    rw [htech] at herr
    simp at herr

theorem hf_exclusive (f : String) : exclusiveResult (handle_feedback f) := by
  unfold handle_feedback exclusiveResult
  split_ifs <;> simp

theorem gsr_exclusive (llm : String → Except String String) (st : Memory)
    (ud m uid : String) :
    exclusiveResult (get_support_response llm st ud m uid).1 := by
  cases h1 : scheduleGuard m
  case true => rw [gsr_schedule_branch llm st ud m uid h1]; simp [exclusiveResult]
  cases h2 : newConnectionGuard m
  case true => rw [gsr_newconn_branch llm st ud m uid h1 h2]; simp [exclusiveResult]
  cases h3 : feedbackRequestGuard m
  case true =>
    rw [gsr_feedbackreq_branch llm st ud m uid h1 h2 h3]
    simp [exclusiveResult, ask_for_feedback]
  cases h4 : ratingGuard m
  case true =>
    rw [gsr_rating_branch llm st ud m uid h1 h2 h3 h4]
    exact hf_exclusive m
  cases h5 : exitGuard m
  case true =>
    rw [gsr_exit_branch llm st ud m uid h1 h2 h3 h4 h5]
    simp [exclusiveResult, handle_exit]
  rw [gsr_main_branch llm st ud m uid h1 h2 h3 h4 h5]
  exact main_exclusive llm st ud m uid

theorem app_gsr_eq (llm : String → Except String String) (st : Memory)
    (ud m uid : String) :
    app_get_support_response llm st ud m uid =
      (if ((get_user_memory st uid).1).isEmpty then
        (match llm (formatPrompt (app_inputs ud "" m)
            (app_get_prompt_template (categorize_query m))) with
         | Except.error e => ({ error := some e }, (get_user_memory st uid).2)
         | Except.ok response =>
           ({ response := some response,
              category := some (categorize_query m) },
            save_context (get_user_memory st uid).2 uid m response))
      else
        ({ error := some "sequence item 0: expected str instance, HumanMessage found" },
         (get_user_memory st uid).2)) := by
  unfold app_get_support_response app_get_conversation_history
  simp only [gum_idem]
  by_cases hE : ((get_user_memory st uid).1).isEmpty <;> simp [hE]

theorem app_gsr_exclusive (llm : String → Except String String) (st : Memory)
    (ud m uid : String) :
    exclusiveResult (app_get_support_response llm st ud m uid).1 := by
  rw [app_gsr_eq]
  by_cases hE : ((get_user_memory st uid).1).isEmpty
  · simp only [hE, if_true]
    cases hL : llm (formatPrompt (app_inputs ud "" m)
        (app_get_prompt_template (categorize_query m))) with
    | error e => simp only [hL]; simp [exclusiveResult]
    | ok r => simp only [hL]; simp [exclusiveResult]
  · simp [hE, exclusiveResult]

/-- Does the result's response text contain the given fragment? -/
def responseMentions (r : SupportResult) (fragment : String) : Bool :=
  match r.response with
  | some t => strContains t fragment
  | none => false

/-- Claim C2, evaluated at a failing input: the claim says that for a
message containing "technical issue" and not "resolved" the call returns
the "ask for engineer visit" stub response in place of the model's text.
The code indeed classifies, fetches the transcript, assembles the prompt,
invokes the completion and appends the turn — but the override then calls
`self.ask_for_engineer_visit()`, a method the class never defines, so the
call raises `AttributeError` and the catch-all returns an ERROR result
(while the appended turn persists), not the stub response.  Shown here on
the concrete input (profile "ud", message "technical issue", user "u1",
empty store, completion succeeding with "STUB_REPLY"). -/
theorem claim_C2_engineer_visit_method_missing :
    get_support_response llmStubOk [] "ud" "technical issue" "u1" =
      ({ error := some (errorWrap (attrMessage "ask_for_engineer_visit")) },
       [("u1", [("technical issue", "STUB_REPLY")])]) := by
  decide

/-- Claim C3, counterexample: on the message
"bye i want a new connection" (which contains both "bye" and
"new connection"), `get_support_response` does NOT resolve it by the
feedback-request branch (`ask_for_feedback`); it is taken by the
new-connection branch, which is checked earlier (line 166 before line
170) and yields the `handle_new_connection` missing-method error. -/
theorem claim_C3_counterexample :
    (get_support_response llmStubOk [] "ud" "bye i want a new connection" "u1").1 ≠
        ask_for_feedback "bye i want a new connection" ∧
      (get_support_response llmStubOk [] "ud" "bye i want a new connection" "u1").1 =
        { error := some (errorWrap (attrMessage "handle_new_connection")) } := by
  decide

/-- Claim C3 as amended: a message containing both "bye" and
"new connection" is resolved by the interceptor with higher priority in
the fixed order — which is the NEW-CONNECTION branch, not the
feedback-request branch (whose trigger set is "thank you"/"exit"/
"okay bye" and which is checked later anyway); in the reference this
branch calls the undefined method `handle_new_connection` and therefore
returns its `AttributeError` error result with the store untouched.  The
schedule-branch keywords must be absent, since that branch is checked
even earlier. -/
theorem claim_C3_new_connection_branch_wins :
    ∀ (llm : String → Except String String) (st : Memory) (ud m uid : String),
      strContains (pyLower m) "bye" = true →
      strContains (pyLower m) "new connection" = true →
      scheduleGuard m = false →
      get_support_response llm st ud m uid =
        ({ error := some (errorWrap (attrMessage "handle_new_connection")) }, st) := by
  intro llm st ud m uid _ h2 h1
  exact gsr_newconn_branch llm st ud m uid h1 h2

theorem claim_C3_witness :
    get_support_response llmStubOk [] "ud" "bye new connection please" "u1" =
      ({ error := some (errorWrap (attrMessage "handle_new_connection")) },
       ([] : Memory)) :=
  claim_C3_new_connection_branch_wins llmStubOk [] "ud" "bye new connection please"
    "u1" (by decide) (by decide) (by decide)

/-- Claim C4: `handle_feedback` maps ratings to fixed tiers — "5" and "4"
mention "Excellent", "2" and "1" mention "improvement", "3" mentions
"Satisfactory", and every input outside the literal strings "1"-"5"
(e.g. "9") mentions "invalid rating"; moreover in the orchestrator the
feedback branch is taken exactly when the message is literally one of
"1"-"5" (the reachability condition of line 174 — no earlier interceptor
can fire on these five strings — equals the literal membership test), in
which case the call returns `handle_feedback` of the message with the
store untouched and the completion service never invoked (the result is
the same for every completion oracle). -/
theorem claim_C4_feedback_tiers :
    responseMentions (handle_feedback "5") "Excellent" = true ∧
    responseMentions (handle_feedback "4") "Excellent" = true ∧
    responseMentions (handle_feedback "2") "improvement" = true ∧
    responseMentions (handle_feedback "1") "improvement" = true ∧
    responseMentions (handle_feedback "3") "Satisfactory" = true ∧
    responseMentions (handle_feedback "9") "invalid rating" = true ∧
    (∀ f : String, ratingGuard f = false →
      responseMentions (handle_feedback f) "invalid rating" = true) ∧
    (∀ m : String,
      (!scheduleGuard m && !newConnectionGuard m && !feedbackRequestGuard m &&
        ratingGuard m) = ratingGuard m) ∧
    (∀ (llm llm2 : String → Except String String) (st : Memory)
        (ud uid m : String), ratingGuard m = true →
      get_support_response llm st ud m uid = (handle_feedback m, st) ∧
      get_support_response llm st ud m uid =
        get_support_response llm2 st ud m uid) := by
  refine ⟨by decide, by decide, by decide, by decide, by decide, by decide,
    ?_, ?_, ?_⟩
  · intro f h
    unfold handle_feedback
    rw [show (["1", "2", "3", "4", "5"].contains f) = false from h]
    rfl
  · intro m
    cases hr : ratingGuard m
    · simp [hr]
    · have hm : m = "1" ∨ m = "2" ∨ m = "3" ∨ m = "4" ∨ m = "5" := by
        simpa [ratingGuard] using hr
      rcases hm with h | h | h | h | h <;> subst h <;> decide
  · intro llm llm2 st ud uid m h
    have hm : m = "1" ∨ m = "2" ∨ m = "3" ∨ m = "4" ∨ m = "5" := by
      simpa [ratingGuard] using h
    rcases hm with h' | h' | h' | h' | h' <;> subst h' <;>
      exact ⟨gsr_rating_branch llm st ud _ uid (by decide) (by decide)
          (by decide) (by decide),
        by rw [gsr_rating_branch llm st ud _ uid (by decide) (by decide)
            (by decide) (by decide),
          gsr_rating_branch llm2 st ud _ uid (by decide) (by decide)
            (by decide) (by decide)]⟩

theorem claim_C4_witness :
    get_support_response llmStubOk [] "ud" "3" "u1" =
      (handle_feedback "3", ([] : Memory)) :=
  (claim_C4_feedback_tiers.2.2.2.2.2.2.2.2 llmStubOk llmStubFail [] "ud" "u1"
    "3" (by decide)).1

/-- Claim C5: neither orchestrator lets an exception escape — both are
total functions into a result value for every completion oracle,
including oracles that always raise (raises are converted into results
carrying the error field) — and every returned result populates exactly
one of the response field and the error field. -/
theorem claim_C5_exactly_one_of_response_error :
    (∀ (llm : String → Except String String) (st : Memory) (ud m uid : String),
      exclusiveResult (get_support_response llm st ud m uid).1) ∧
    (∀ (llm : String → Except String String) (st : Memory) (ud m uid : String),
      exclusiveResult (app_get_support_response llm st ud m uid).1) :=
  ⟨fun llm st ud m uid => gsr_exclusive llm st ud m uid,
   fun llm st ud m uid => app_gsr_exclusive llm st ud m uid⟩

/-- Claim C6, counterexample: on the message "technical issue" (with a
succeeding completion) the call returns an ERROR result — the
post-completion override calls the undefined `ask_for_engineer_visit` —
yet the user's transcript has grown by the completed turn, because
`save_context` runs before that override.  So an error result does not
imply the session store is unchanged. -/
theorem claim_C6_counterexample :
    ((get_support_response llmStubOk [] "ud" "technical issue" "u1").1.error).isSome
        = true ∧
      content (get_support_response llmStubOk [] "ud" "technical issue" "u1").2 "u1" ≠
        content ([] : Memory) "u1" := by
  decide

/-- Claim C6 as amended: whenever `get_support_response` returns an error
result on a message that does NOT satisfy the engineer-visit condition
(contains "technical issue" and lacks "resolved"), every user's
transcript content is exactly as before the call (at most an empty buffer
is created for a previously unseen user — no turn is recorded); on a
message that does satisfy that condition and is not intercepted, a
successful completion appends the turn even though the call then returns
the missing-method error result. -/
theorem claim_C6_failed_attempts_not_recorded :
    (∀ (llm : String → Except String String) (st : Memory) (ud m uid : String),
      ((get_support_response llm st ud m uid).1.error).isSome = true →
      techIssueGuard m = false →
      ∀ v, content (get_support_response llm st ud m uid).2 v = content st v) ∧
    (∀ (resp : String) (st : Memory) (ud m uid : String),
      interceptorTaken m = false →
      techIssueGuard m = true →
      content (get_support_response (fun _ => Except.ok resp) st ud m uid).2 uid =
        content st uid ++ [(m, resp)]) := by
  constructor
  · intro llm st ud m uid herr htech v
    cases h1 : scheduleGuard m
    case true => rw [gsr_schedule_branch llm st ud m uid h1]
    cases h2 : newConnectionGuard m
    case true => rw [gsr_newconn_branch llm st ud m uid h1 h2]
    cases h3 : feedbackRequestGuard m
    case true => rw [gsr_feedbackreq_branch llm st ud m uid h1 h2 h3]
    cases h4 : ratingGuard m
    case true => rw [gsr_rating_branch llm st ud m uid h1 h2 h3 h4]
    cases h5 : exitGuard m
    case true => rw [gsr_exit_branch llm st ud m uid h1 h2 h3 h4 h5]
    rw [gsr_main_branch llm st ud m uid h1 h2 h3 h4 h5] at herr ⊢
    exact main_content llm st ud m uid htech herr v
  · intro resp st ud m uid hI htech
    have hg : scheduleGuard m = false ∧ newConnectionGuard m = false ∧
        feedbackRequestGuard m = false ∧ ratingGuard m = false ∧
        exitGuard m = false := by
      simpa [interceptorTaken, and_assoc] using hI
    obtain ⟨h1, h2, h3, h4, h5⟩ := hg
    rw [gsr_main_branch _ st ud m uid h1 h2 h3 h4 h5, main_eq]
    rcases gpt_cat_some m with ⟨tpl, hT⟩
    simp only [hT, htech, if_true]
    rw [content_save_self _ _ _ _ _ (gum_self_lookup st uid), gum_fst]

theorem claim_C6_witness :
    content (get_support_response llmStubFail [] "ud" "hello" "u1").2 "u1" =
        content ([] : Memory) "u1" ∧
      content (get_support_response (fun _ => Except.ok "R") []
          "ud" "my technical issue" "u1").2 "u1" =
        content ([] : Memory) "u1" ++ [("my technical issue", "R")] :=
  ⟨claim_C6_failed_attempts_not_recorded.1 llmStubFail [] "ud" "hello" "u1"
      (by decide) (by decide) "u1",
   claim_C6_failed_attempts_not_recorded.2 "R" [] "ud" "my technical issue"
      "u1" (by decide) (by decide)⟩

/-- Claim C7: `get_user_memory` is idempotent — calling it twice in
sequence for the same user without intervening writes returns the same
transcript content and the same store — and creating the buffer on first
access never discards earlier writes: if the user already has a buffer the
call returns it with the store untouched, and in all cases the transcript
content of every user (the calling one included) is preserved.  The single
definition embeds both `TechnicalSupportAgent.get_user_memory` and
`MultiSupportAgent.get_user_memory`, which are line-identical. -/
theorem claim_C7_get_user_memory_idempotent :
    ∀ (st : Memory) (u : String),
      (get_user_memory (get_user_memory st u).2 u).1 = (get_user_memory st u).1 ∧
      (get_user_memory (get_user_memory st u).2 u).2 = (get_user_memory st u).2 ∧
      (∀ t, assocLookup st u = some t → get_user_memory st u = (t, st)) ∧
      (∀ v, content (get_user_memory st u).2 v = content st v) := by
  intro st u
  refine ⟨?_, ?_, ?_, ?_⟩
  · rw [gum_idem]
  · rw [gum_idem]
  · intro t h
    simp [get_user_memory, h]
  · exact content_gum st u

theorem claim_C7_witness :
    get_user_memory [("u1", [("q", "a")])] "u1" =
      ([("q", "a")], [("u1", [("q", "a")])]) :=
  (claim_C7_get_user_memory_idempotent [("u1", [("q", "a")])] "u1").2.2.1
    [("q", "a")] (by decide)

/-- Claim C8, counterexample: in `TechnicalSupportAgent`,
`get_prompt_template` of a category outside the five defined keys does NOT
yield the `general_queries` template — `self.prompts.get(category)` has no
default there, so the lookup yields no template at all (`None`, making the
`PromptTemplate` construction fail) rather than falling back. -/
theorem claim_C8_counterexample :
    get_prompt_template "unknown_topic" ≠ get_prompt_template "general_queries" := by
  decide

/-- Claim C8 as amended: the fallback holds only for the `app.py`
assembler — for every category outside the five defined keys,
`MultiSupportAgent.get_prompt_template` yields the `general_queries`
template (and hence the same rendered prompt on any inputs) — while
`TechnicalSupportAgent.get_prompt_template` of such a category yields no
template (`none`) instead of falling back. -/
theorem claim_C8_missing_category_fallback :
    ∀ category : String,
      (["technical_support", "billing", "service_request",
        "account_management", "general_queries"].contains category) = false →
      (app_get_prompt_template category = app_get_prompt_template "general_queries" ∧
       (∀ inputs : SupportInputs,
         formatPrompt inputs (app_get_prompt_template category) =
           formatPrompt inputs (app_get_prompt_template "general_queries")) ∧
       get_prompt_template category = none) := by
  intro c h
  simp only [List.contains_cons, List.contains_nil, Bool.or_false,
    Bool.or_eq_false_iff, beq_eq_false_iff_ne, ne_eq] at h
  obtain ⟨n1, n2, n3, n4, n5⟩ := h
  have happ : app_get_prompt_template c = app_general_queries_template := by
    simp [app_get_prompt_template, app_prompts, assocLookup,
      Ne.symm n1, Ne.symm n2, Ne.symm n3, Ne.symm n4, Ne.symm n5]
  refine ⟨?_, ?_, ?_⟩
  · rw [happ]; rfl
  · intro inputs; rw [happ]; rfl
  · simp [get_prompt_template, prompts, assocLookup,
      Ne.symm n1, Ne.symm n2, Ne.symm n3, Ne.symm n4, Ne.symm n5]

theorem claim_C8_witness :
    app_get_prompt_template "unknown_category" =
        app_get_prompt_template "general_queries" ∧
      get_prompt_template "unknown_category" = none :=
  ⟨(claim_C8_missing_category_fallback "unknown_category" (by decide)).1,
   (claim_C8_missing_category_fallback "unknown_category" (by decide)).2.2⟩

/-- Claim C9: for every message whose lower-cased text contains any of
"schedule call", "visit", "setup connection" or "new connection",
`TechnicalSupportAgent.get_support_response` returns an error result (the
hand-off methods `schedule_visit_or_call` / `handle_new_connection` are
not defined on the class, so these first two branches raise
`AttributeError`, converted by the catch-all), the store is untouched, and
the completion service is never invoked (the result is identical for every
completion oracle). -/
theorem claim_C9_handoff_branches_error :
    ∀ (llm llm2 : String → Except String String) (st : Memory)
      (ud m uid : String),
      (["schedule call", "visit", "setup connection", "new connection"].any
        (fun keyword => strContains (pyLower m) keyword)) = true →
      (((get_support_response llm st ud m uid).1.error).isSome = true ∧
       (get_support_response llm st ud m uid).2 = st ∧
       get_support_response llm st ud m uid =
         get_support_response llm2 st ud m uid) := by
  intro llm llm2 st ud m uid h
  cases h1 : scheduleGuard m
  case true =>
    rw [gsr_schedule_branch llm st ud m uid h1,
      gsr_schedule_branch llm2 st ud m uid h1]
    simp
  case false =>
    have h2 : newConnectionGuard m = true := by
      have h1e := h1
      simp only [scheduleGuard, List.any_cons, List.any_nil, Bool.or_false,
        Bool.or_eq_false_iff] at h1e
      obtain ⟨ha, hb, hc⟩ := h1e
      simp only [List.any_cons, List.any_nil, Bool.or_false, ha, hb, hc,
        Bool.false_or] at h
      exact h
    rw [gsr_newconn_branch llm st ud m uid h1 h2,
      gsr_newconn_branch llm2 st ud m uid h1 h2]
    simp

theorem claim_C9_witness :
    ((get_support_response llmStubOk [] "ud" "please schedule call" "u1").1.error).isSome
      = true :=
  (claim_C9_handoff_branches_error llmStubOk llmStubFail [] "ud"
    "please schedule call" "u1" (by decide)).1

/-- Claim C10: whenever a message is resolved by one of the five
interceptor branches, the session memory store is neither written (the
store after the call is the store before it) nor read (the result value
is the same for every store — and for every completion oracle, which is
also never invoked). -/
theorem claim_C10_interceptors_frame :
    ∀ (llm llm2 : String → Except String String) (st st2 : Memory)
      (ud m uid : String),
      interceptorTaken m = true →
      ((get_support_response llm st ud m uid).2 = st ∧
       (get_support_response llm st ud m uid).1 =
         (get_support_response llm2 st2 ud m uid).1) := by
  intro llm llm2 st st2 ud m uid h
  cases h1 : scheduleGuard m
  case true =>
    rw [gsr_schedule_branch llm st ud m uid h1,
      gsr_schedule_branch llm2 st2 ud m uid h1]
    simp
  cases h2 : newConnectionGuard m
  case true =>
    rw [gsr_newconn_branch llm st ud m uid h1 h2,
      gsr_newconn_branch llm2 st2 ud m uid h1 h2]
    simp
  cases h3 : feedbackRequestGuard m
  case true =>
    rw [gsr_feedbackreq_branch llm st ud m uid h1 h2 h3,
      gsr_feedbackreq_branch llm2 st2 ud m uid h1 h2 h3]
    simp
  cases h4 : ratingGuard m
  case true =>
    rw [gsr_rating_branch llm st ud m uid h1 h2 h3 h4,
      gsr_rating_branch llm2 st2 ud m uid h1 h2 h3 h4]
    simp
  cases h5 : exitGuard m
  case true =>
    rw [gsr_exit_branch llm st ud m uid h1 h2 h3 h4 h5,
      gsr_exit_branch llm2 st2 ud m uid h1 h2 h3 h4 h5]
    simp
  simp [interceptorTaken, h1, h2, h3, h4, h5] at h

theorem claim_C10_witness :
    (get_support_response llmStubOk [] "ud" "thank you" "u1").2 = ([] : Memory) :=
  (claim_C10_interceptors_frame llmStubOk llmStubFail []
    [("u2", [("a", "b")])] "ud" "thank you" "u1" (by decide)).1
